import Mathlib

/-!
# Run/encounter capture and deduplication model of `background.js`

A shallow embedding of the run-tracking subsystem of the Pokerogue Tableau
browser extension (`src/background.js`): the mutable globals `currentRun`,
`encounterBuffer`, `battleIndex` and `lastLoggedWaveIndex` become an explicit
`TrackerState`, and the operations `startRun`, `endRun` and
`logEncounterFromSession` become state-transition functions.  The download
sink is modelled structurally as an `Emission` (the target filename together
with the `{run, encounters}` payload); JSON serialisation and the data URL
are the external sink and carry no logic of their own.  The external species
lookup `Utils.convertPokemonId` is an external collaborator and is passed in
as an abstract function.  Timestamps (`new Date().toISOString()`) are passed
in as explicit `now` strings.
-/

/-- A JavaScript value as it occurs in the tracked record fields: `null`,
a number, a string, or a boolean.  Numbers are modelled as integers (all
numbers reaching these fields are wave indices, levels and counts). -/
inductive JsVal where
  | null : JsVal
  | num : Int → JsVal
  | str : String → JsVal
  | bool : Bool → JsVal
deriving DecidableEq, Repr

/-- JavaScript falsiness for the modelled values, as used by the
`firstEnemy.level || null` expression: `null`, `0`, `""` and `false` are
falsy. -/
def jsFalsy : JsVal → Bool
  | JsVal.null => true
  | JsVal.num n => n == 0
  | JsVal.str s => s == ""
  | JsVal.bool b => !b

/-- The `currentRun` record built by `startRun` (background.js lines 14-24). -/
structure Run where
  run_id : String
  start_timestamp : String
  end_timestamp : JsVal
  result : JsVal
  final_stage : JsVal
  final_boss : JsVal
  starter_species : JsVal
  total_battles : JsVal
  run_tag : JsVal
deriving DecidableEq, Repr

/-- One element of `encounterBuffer` as pushed by `logEncounterFromSession`
(background.js lines 188-199). -/
structure Encounter where
  encounter_id : String
  battle_index : Nat
  enemy_species : Int
  enemy_type1 : JsVal
  enemy_type2 : JsVal
  enemy_level : JsVal
  is_boss : Bool
  encounter_result : JsVal
  enemy_ended_run : Bool
  notes : JsVal
deriving DecidableEq, Repr

/-- A member of `enemyParty`: the fields `logEncounterFromSession` reads
(`species` feeds the external id lookup, `level` is recorded with
falsy-to-null coercion). -/
structure EnemyMember where
  species : Int
  level : JsVal
deriving DecidableEq, Repr

/-- A session snapshot as consumed by `logEncounterFromSession`.
`waveIndex = some w` models a numeric `waveIndex` property (the code coerces
any non-number, including absence, to `null`, modelled as `none`).
`enemyParty = none` models a missing or non-array `enemyParty`. -/
structure Snapshot where
  waveIndex : Option Int
  enemyParty : Option (List EnemyMember)
deriving DecidableEq, Repr

/-- The module-level mutable tracking state of background.js (lines 5-10):
`currentRun`, `encounterBuffer`, `battleIndex`, `lastLoggedWaveIndex`. -/
structure TrackerState where
  currentRun : Option Run
  encounterBuffer : List Encounter
  battleIndex : Nat
  lastLoggedWaveIndex : Option Int
deriving DecidableEq, Repr

/-- The initial values of the module-level globals. -/
def initState : TrackerState :=
  { currentRun := none, encounterBuffer := [], battleIndex := 0,
    lastLoggedWaveIndex := none }

/-- The caller-supplied `runMeta` object of `endRun`.  Each field is `some v`
when the corresponding key is present on the object (possibly with a `null`
value) and `none` when the key is absent; `Object.assign` copies exactly the
present keys.  `run_id`/`start_timestamp`/`end_timestamp`/`total_battles` are
included because the merge is unfiltered. -/
structure RunMeta where
  run_id : Option String
  start_timestamp : Option String
  end_timestamp : Option JsVal
  result : Option JsVal
  final_stage : Option JsVal
  final_boss : Option JsVal
  starter_species : Option JsVal
  total_battles : Option JsVal
  run_tag : Option JsVal
deriving DecidableEq, Repr

/-- The empty metadata object `{}`. -/
def emptyMeta : RunMeta :=
  { run_id := none, start_timestamp := none, end_timestamp := none,
    result := none, final_stage := none, final_boss := none,
    starter_species := none, total_battles := none, run_tag := none }

/-- The merge `Object.assign(currentRun, runMeta)` (background.js line 41): every key
present on `runMeta` overwrites the corresponding `currentRun` field
(including overwriting with `null`); absent keys leave the field unchanged. -/
def mergeMeta (run : Run) (m : RunMeta) : Run :=
  { run_id := m.run_id.getD run.run_id,
    start_timestamp := m.start_timestamp.getD run.start_timestamp,
    end_timestamp := m.end_timestamp.getD run.end_timestamp,
    result := m.result.getD run.result,
    final_stage := m.final_stage.getD run.final_stage,
    final_boss := m.final_boss.getD run.final_boss,
    starter_species := m.starter_species.getD run.starter_species,
    total_battles := m.total_battles.getD run.total_battles,
    run_tag := m.run_tag.getD run.run_tag }

/-- The `{run, encounters}` payload assembled by `endRun`
(background.js lines 46-49). -/
structure Payload where
  run : Run
  encounters : List Encounter
deriving DecidableEq, Repr

/-- One call to `browserApi.downloads.download` (background.js lines 60-69),
modelled as the target filename plus the structured payload. -/
structure Emission where
  filename : String
  payload : Payload
deriving DecidableEq, Repr

/-- The response object delivered through `sendResponse`. -/
structure MsgResponse where
  success : Bool
deriving DecidableEq, Repr

/-- The sanitisation `currentRun.run_id.replace(/[:]/g, "-")` (background.js line 58):
every colon character becomes a hyphen. -/
def replaceColonsWithHyphens (s : String) : String :=
  String.mk (s.data.map (fun c => if c = ':' then '-' else c))

/-- JavaScript `String.prototype.padStart(targetLength, padChar)` for a one-character
pad string: prepend copies of `padChar` until the length reaches
`targetLength`; a string already at least that long is unchanged. -/
def padStart (targetLength : Nat) (padChar : Char) (s : String) : String :=
  if targetLength ≤ s.length then s
  else String.mk (List.replicate (targetLength - s.length) padChar) ++ s

/-- Operation `startRun()` (background.js lines 12-29): unconditionally installs a
fresh run record keyed by the current time, and resets the encounter buffer,
the battle index and the wave-dedup cursor.  The prior state is discarded
whatever it was. -/
def startRun (_st : TrackerState) (now : String) : TrackerState :=
  { currentRun := some
      { run_id := "run_" ++ now,
        start_timestamp := now,
        end_timestamp := JsVal.null,
        result := JsVal.null,
        final_stage := JsVal.null,
        final_boss := JsVal.null,
        starter_species := JsVal.null,
        total_battles := JsVal.null,
        run_tag := JsVal.null },
    encounterBuffer := [],
    battleIndex := 0,
    lastLoggedWaveIndex := none }

/-- The run-record updates of `endRun` (background.js lines 36-44): stamp
`end_timestamp`, merge the metadata when `runMeta` is an object
(`runMeta = none` models a non-object argument, skipped by the
`typeof runMeta === "object"` guard), then set `total_battles` to the
buffer length. -/
def finalizedRun (run0 : Run) (now : String) (runMeta : Option RunMeta)
    (bufferLength : Nat) : Run :=
  let run1 : Run := { run0 with end_timestamp := JsVal.str now }
  let run2 : Run :=
    match runMeta with
    | some m => mergeMeta run1 m
    | none => run1
  { run2 with total_battles := JsVal.num (Int.ofNat bufferLength) }

/-- Operation `endRun(runMeta)` (background.js lines 31-83).  With no active run it
warns and returns (state unchanged, no emission).  Otherwise it applies
`finalizedRun` to the active run, emits the `{run, encounters}` document to
`pokerogue_runs/<run_id with colons replaced>.json`, and clears all four
globals. -/
def endRun (st : TrackerState) (now : String) (runMeta : Option RunMeta) :
    TrackerState × Option Emission :=
  match st.currentRun with
  | none => (st, none)
  | some run0 =>
    let run3 : Run := finalizedRun run0 now runMeta st.encounterBuffer.length
    let safeRunId := replaceColonsWithHyphens run3.run_id
    ({ currentRun := none, encounterBuffer := [], battleIndex := 0,
       lastLoggedWaveIndex := none },
     some { filename := "pokerogue_runs/" ++ safeRunId ++ ".json",
            payload := { run := run3, encounters := st.encounterBuffer } })

/-- Operation `logEncounterFromSession(sessionData)` (background.js lines 154-205).
Early returns: no active run, absent snapshot, missing/empty `enemyParty`,
or a numeric `waveIndex` equal to `lastLoggedWaveIndex`.  Otherwise pushes a
normalized encounter for the first party member, increments `battleIndex`,
and records a numeric `waveIndex` as the new dedup cursor. -/
def logEncounterFromSession (convertId : Int → Int) (st : TrackerState)
    (sessionData : Option Snapshot) : TrackerState :=
  match st.currentRun with
  | none => st
  | some run =>
    match sessionData with
    | none => st
    | some sd =>
      match sd.enemyParty with
      | none => st
      | some [] => st
      | some (firstEnemy :: _) =>
        let waveIndex : Option Int := sd.waveIndex
        if waveIndex ≠ none ∧ waveIndex = st.lastLoggedWaveIndex then st
        else
          let pokemonId := convertId firstEnemy.species
          let encounterId :=
            run.run_id ++ "_" ++ padStart 3 '0' (toString st.battleIndex)
          { currentRun := st.currentRun,
            encounterBuffer := st.encounterBuffer ++
              [{ encounter_id := encounterId,
                 battle_index := st.battleIndex,
                 enemy_species := pokemonId,
                 enemy_type1 := JsVal.null,
                 enemy_type2 := JsVal.null,
                 enemy_level :=
                   if jsFalsy firstEnemy.level then JsVal.null
                   else firstEnemy.level,
                 is_boss := false,
                 encounter_result := JsVal.null,
                 enemy_ended_run := false,
                 notes := JsVal.null }],
            battleIndex := st.battleIndex + 1,
            lastLoggedWaveIndex :=
              match waveIndex with
              | some w => some w
              | none => st.lastLoggedWaveIndex }

/-- The `END_RUN` branch of the message listener (background.js lines
249-253): calls `endRun(request.runMeta || {})` and then unconditionally
responds `{success: true}`, whether or not a run was active. -/
def handleEndRun (st : TrackerState) (now : String)
    (runMeta : Option RunMeta) :
    TrackerState × Option Emission × MsgResponse :=
  let out := endRun st now (some (runMeta.getD emptyMeta))
  (out.1, out.2, { success := true })

/-- Deliver a list of session snapshots in order, each through
`logEncounterFromSession`. -/
def runSnapshots (convertId : Int → Int) (st : TrackerState) :
    List (Option Snapshot) → TrackerState
  | [] => st
  | sd :: rest =>
      runSnapshots convertId (logEncounterFromSession convertId st sd) rest

/-- A snapshot is "valid and non-deduplicated" in state `st`: a run is
active, the snapshot is present with a non-empty `enemyParty`, and its
`waveIndex` (when numeric) differs from the current dedup cursor — exactly
the conditions under which `logEncounterFromSession` appends. -/
def snapAppendsB (st : TrackerState) (sd : Option Snapshot) : Bool :=
  st.currentRun.isSome &&
  match sd with
  | none => false
  | some s =>
    match s.enemyParty with
    | some (_ :: _) =>
      match s.waveIndex with
      | some w => !(st.lastLoggedWaveIndex == some w)
      | none => true
    | _ => false

/-- Every snapshot of the list appends in the state it is delivered in. -/
def allAppendB (convertId : Int → Int) (st : TrackerState) :
    List (Option Snapshot) → Bool
  | [] => true
  | sd :: rest =>
      snapAppendsB st sd &&
      allAppendB convertId (logEncounterFromSession convertId st sd) rest

/-- Unfolding `endRun` on a state with an active run. -/
theorem endRun_active (st : TrackerState) (r : Run) (now : String)
    (meta : Option RunMeta) (h : st.currentRun = some r) :
    endRun st now meta =
      ({ currentRun := none, encounterBuffer := [], battleIndex := 0,
         lastLoggedWaveIndex := none },
       some { filename := "pokerogue_runs/" ++
                replaceColonsWithHyphens
                  (finalizedRun r now meta st.encounterBuffer.length).run_id ++
                ".json",
              payload := { run := finalizedRun r now meta st.encounterBuffer.length,
                           encounters := st.encounterBuffer } }) := by
  obtain ⟨cr, buf, bi, lw⟩ := st
  simp only [TrackerState.currentRun] at h
  subst h
  rfl

/-- When `snapAppendsB` holds, `logEncounterFromSession` appends exactly one
encounter at the current battle index, increments the battle index, and keeps
the active run. -/
theorem logEncounter_appends (convertId : Int → Int) (st : TrackerState)
    (sd : Option Snapshot) (h : snapAppendsB st sd = true) :
    (logEncounterFromSession convertId st sd).currentRun = st.currentRun ∧
    (logEncounterFromSession convertId st sd).battleIndex = st.battleIndex + 1 ∧
    ∃ enc : Encounter, enc.battle_index = st.battleIndex ∧
      (logEncounterFromSession convertId st sd).encounterBuffer =
        st.encounterBuffer ++ [enc] := by
  unfold snapAppendsB at h
  rw [Bool.and_eq_true] at h
  obtain ⟨hsome, hrest⟩ := h
  obtain ⟨r, hr⟩ : ∃ r, st.currentRun = some r :=
    Option.isSome_iff_exists.mp hsome
  cases sd with
  | none => simp at hrest
  | some s =>
    cases hep : s.enemyParty with
    | none => simp [hep] at hrest
    | some party =>
      cases party with
      | nil => simp [hep] at hrest
      | cons e t =>
        have hcond : ¬(s.waveIndex ≠ none ∧
            s.waveIndex = st.lastLoggedWaveIndex) := by
          cases hw : s.waveIndex with
          | none => simp
          | some w =>
            simp only [hep, hw, Bool.not_eq_true', beq_eq_false_iff_ne]
              at hrest
            simp only [ne_eq, not_and]
            intro _ hc
            exact hrest hc.symm
        simp only [logEncounterFromSession, hr, hep, if_neg hcond]
        exact ⟨trivial, trivial, _, rfl, rfl⟩

/-- A snapshot whose numeric `waveIndex` equals the dedup cursor is dropped:
the state is returned unchanged. -/
theorem logEncounter_dedup_noop (convertId : Int → Int) (st : TrackerState)
    (s : Snapshot) (w : Int) (hw : s.waveIndex = some w)
    (hlast : st.lastLoggedWaveIndex = some w) :
    logEncounterFromSession convertId st (some s) = st := by
  unfold logEncounterFromSession
  cases hcr : st.currentRun with
  | none => rfl
  | some r =>
    cases hep : s.enemyParty with
    | none => simp [hep]
    | some party =>
      cases party with
      | nil => simp [hep]
      | cons e t => simp [hep, hw, hlast]

/-- Delivering a list of snapshots that all append keeps the active run,
advances the battle index by the list length, and extends the buffer's
`battle_index` column by the consecutive range starting at the old index. -/
theorem runSnapshots_allAppend (convertId : Int → Int)
    (snaps : List (Option Snapshot)) :
    ∀ st : TrackerState, allAppendB convertId st snaps = true →
      (runSnapshots convertId st snaps).currentRun = st.currentRun ∧
      (runSnapshots convertId st snaps).battleIndex =
        st.battleIndex + snaps.length ∧
      (runSnapshots convertId st snaps).encounterBuffer.map
          (fun e => e.battle_index) =
        st.encounterBuffer.map (fun e => e.battle_index) ++
          List.range' st.battleIndex snaps.length := by
  induction snaps with
  | nil =>
    intro st _
    exact ⟨rfl, by simp [runSnapshots], by simp [runSnapshots]⟩
  | cons sd rest ih =>
    intro st h
    rw [allAppendB, Bool.and_eq_true] at h
    obtain ⟨h1, h2⟩ := h
    obtain ⟨hcr, hbi, enc, hencbi, hbuf⟩ := logEncounter_appends convertId st sd h1
    obtain ⟨ihcr, ihbi, ihbuf⟩ :=
      ih (logEncounterFromSession convertId st sd) h2
    refine ⟨?_, ?_, ?_⟩
    · rw [runSnapshots, ihcr, hcr]
    · rw [runSnapshots, ihbi, hbi, List.length_cons]
      omega
    · rw [runSnapshots, ihbuf, hbuf, hbi, List.map_append, List.length_cons,
        List.range'_succ]
      simp [hencbi]

/-- C1: For every sequence `startRun` → N appended encounters (valid,
non-deduplicated snapshots) → `endRun`, the emitted run document has
`total_battles = N`, an `encounters` sequence of length N, and
`battle_index` values exactly `0..N-1` in append order. -/
theorem run_document_counts_and_indices (convertId : Int → Int)
    (st0 : TrackerState) (startTime endTime : String)
    (snaps : List (Option Snapshot)) (meta : Option RunMeta)
    (h : allAppendB convertId (startRun st0 startTime) snaps = true) :
    ∃ em : Emission,
      (endRun (runSnapshots convertId (startRun st0 startTime) snaps)
          endTime meta).2 = some em ∧
      em.payload.run.total_battles = JsVal.num (Int.ofNat snaps.length) ∧
      em.payload.encounters.length = snaps.length ∧
      em.payload.encounters.map (fun e => e.battle_index) =
        List.range snaps.length := by
  obtain ⟨hcr, hbi, hmap⟩ :=
    runSnapshots_allAppend convertId snaps (startRun st0 startTime) h
  have hmap2 : (runSnapshots convertId (startRun st0 startTime)
      snaps).encounterBuffer.map (fun e => e.battle_index) =
      List.range snaps.length := by
    rw [hmap, List.range_eq_range']
    rfl
  have hlen : (runSnapshots convertId (startRun st0 startTime)
      snaps).encounterBuffer.length = snaps.length := by
    have hl := congrArg List.length hmap2
    simpa using hl
  obtain ⟨r, hr⟩ : ∃ r, (runSnapshots convertId (startRun st0 startTime)
      snaps).currentRun = some r := by
    rw [hcr]
    exact ⟨_, rfl⟩
  have hend := endRun_active (runSnapshots convertId (startRun st0 startTime)
    snaps) r endTime meta hr
  rw [hend]
  refine ⟨_, rfl, ?_, hlen, hmap2⟩
  exact congrArg (fun n => JsVal.num (Int.ofNat n)) hlen

/-- C1 witness: after a start, two fresh-wave snapshots yield a document with
`total_battles = 2`, two encounters, and battle indices `[0, 1]`. -/
theorem run_document_counts_and_indices_witness :
    allAppendB (fun i => i) (startRun initState "A")
      [some { waveIndex := some 1,
              enemyParty := some [{ species := 25, level := JsVal.num 5 }] },
       some { waveIndex := some 2,
              enemyParty := some [{ species := 4, level := JsVal.num 7 }] }] =
      true ∧
    ∃ em : Emission,
      (endRun (runSnapshots (fun i => i) (startRun initState "A")
          [some { waveIndex := some 1,
                  enemyParty := some [{ species := 25, level := JsVal.num 5 }] },
           some { waveIndex := some 2,
                  enemyParty := some [{ species := 4, level := JsVal.num 7 }] }])
        "B" none).2 = some em ∧
      em.payload.run.total_battles = JsVal.num (Int.ofNat 2) ∧
      em.payload.encounters.length = 2 ∧
      em.payload.encounters.map (fun e => e.battle_index) = List.range 2 :=
  ⟨by decide,
   run_document_counts_and_indices (fun i => i) initState "A" "B"
     [some { waveIndex := some 1,
             enemyParty := some [{ species := 25, level := JsVal.num 5 }] },
      some { waveIndex := some 2,
             enemyParty := some [{ species := 4, level := JsVal.num 7 }] }]
     none (by decide)⟩

/-- A fresh-wave snapshot (numeric wave differing from the cursor, active
run, non-empty party) appends one encounter, keeps the run, and moves the
cursor to its wave. -/
theorem logEncounter_fresh_wave_step (convertId : Int → Int)
    (st : TrackerState) (s : Snapshot) (w : Int) (r : Run)
    (hr : st.currentRun = some r) (hw : s.waveIndex = some w)
    (hfresh : st.lastLoggedWaveIndex ≠ some w)
    (e : EnemyMember) (t : List EnemyMember)
    (hp : s.enemyParty = some (e :: t)) :
    (logEncounterFromSession convertId st (some s)).currentRun = some r ∧
    (logEncounterFromSession convertId st (some s)).encounterBuffer.length =
      st.encounterBuffer.length + 1 ∧
    (logEncounterFromSession convertId st (some s)).lastLoggedWaveIndex =
      some w := by
  have hcond : ¬(some w = st.lastLoggedWaveIndex) := fun hc => hfresh hc.symm
  simp only [logEncounterFromSession, hr, hp, hw]
  split
  · next hcontra => exact absurd hcontra.2 hcond
  · simp

/-- C2: deduplication is a strict equality check against only the single
most-recently-logged wave.  First part: of two consecutive snapshots with
the same non-null wave (fresh when the first arrives), the second is a
no-op, so exactly one encounter is appended.  Second part: after a start,
the wave sequence `[5, 6, 5]` appends three encounters, since the cursor is
6 when wave 5 recurs. -/
theorem dedup_strict_last_wave (convertId : Int → Int) (st : TrackerState)
    (r : Run) (w : Int) (s1 s2 : Snapshot)
    (hr : st.currentRun = some r)
    (hfresh : st.lastLoggedWaveIndex ≠ some w)
    (hw1 : s1.waveIndex = some w) (hw2 : s2.waveIndex = some w)
    (e1 : EnemyMember) (t1 : List EnemyMember)
    (hp1 : s1.enemyParty = some (e1 :: t1))
    (e2 : EnemyMember) (t2 : List EnemyMember)
    (hp2 : s2.enemyParty = some (e2 :: t2)) :
    logEncounterFromSession convertId
        (logEncounterFromSession convertId st (some s1)) (some s2) =
      logEncounterFromSession convertId st (some s1) ∧
    (logEncounterFromSession convertId st (some s1)).encounterBuffer.length =
      st.encounterBuffer.length + 1 ∧
    ∀ (st0 : TrackerState) (now : String) (u1 u2 u3 : Snapshot)
      (f1 f2 f3 : EnemyMember) (l1 l2 l3 : List EnemyMember),
      u1.waveIndex = some 5 → u2.waveIndex = some 6 →
      u3.waveIndex = some 5 →
      u1.enemyParty = some (f1 :: l1) → u2.enemyParty = some (f2 :: l2) →
      u3.enemyParty = some (f3 :: l3) →
      (runSnapshots convertId (startRun st0 now)
          [some u1, some u2, some u3]).encounterBuffer.length = 3 := by
  obtain ⟨hcr1, hlen1, hlast1⟩ :=
    logEncounter_fresh_wave_step convertId st s1 w r hr hw1 hfresh e1 t1 hp1
  refine ⟨logEncounter_dedup_noop convertId _ s2 w hw2 hlast1, hlen1, ?_⟩
  intro st0 now u1 u2 u3 f1 f2 f3 l1 l2 l3 hu1 hu2 hu3 hq1 hq2 hq3
  obtain ⟨hc1, hl1, hv1⟩ :=
    logEncounter_fresh_wave_step convertId (startRun st0 now) u1 5 _ rfl hu1
      (by rw [show (startRun st0 now).lastLoggedWaveIndex = none from rfl]
          simp)
      f1 l1 hq1
  obtain ⟨hc2, hl2, hv2⟩ :=
    logEncounter_fresh_wave_step convertId
      (logEncounterFromSession convertId (startRun st0 now) (some u1))
      u2 6 _ hc1 hu2 (by rw [hv1]; simp) f2 l2 hq2
  obtain ⟨hc3, hl3, hv3⟩ :=
    logEncounter_fresh_wave_step convertId
      (logEncounterFromSession convertId
        (logEncounterFromSession convertId (startRun st0 now) (some u1))
        (some u2))
      u3 5 _ hc2 hu3 (by rw [hv2]; simp) f3 l3 hq3
  show (logEncounterFromSession convertId
      (logEncounterFromSession convertId
        (logEncounterFromSession convertId (startRun st0 now) (some u1))
        (some u2))
      (some u3)).encounterBuffer.length = 3
  rw [hl3, hl2, hl1]
  rfl

/-- C2 witness: concrete wave-7 snapshots delivered twice append one
encounter, and the concrete wave sequence `[5, 6, 5]` after a start appends
three. -/
theorem dedup_strict_last_wave_witness :
    logEncounterFromSession (fun i => i)
        (logEncounterFromSession (fun i => i) (startRun initState "A")
          (some { waveIndex := some 7,
                  enemyParty := some [{ species := 1, level := JsVal.num 3 }] }))
        (some { waveIndex := some 7,
                enemyParty := some [{ species := 2, level := JsVal.num 4 }] }) =
      logEncounterFromSession (fun i => i) (startRun initState "A")
        (some { waveIndex := some 7,
                enemyParty := some [{ species := 1, level := JsVal.num 3 }] }) ∧
    (logEncounterFromSession (fun i => i) (startRun initState "A")
        (some { waveIndex := some 7,
                enemyParty :=
                  some [{ species := 1,
                          level := JsVal.num 3 }] })).encounterBuffer.length =
      (startRun initState "A").encounterBuffer.length + 1 ∧
    (runSnapshots (fun i => i) (startRun initState "Z")
        [some { waveIndex := some 5,
                enemyParty := some [{ species := 10, level := JsVal.num 1 }] },
         some { waveIndex := some 6,
                enemyParty := some [{ species := 11, level := JsVal.num 2 }] },
         some { waveIndex := some 5,
                enemyParty :=
                  some [{ species := 12,
                          level := JsVal.num 3 }] }]).encounterBuffer.length =
      3 := by
  obtain ⟨h1, h2, h3⟩ :=
    dedup_strict_last_wave (fun i => i) (startRun initState "A") _ 7
      { waveIndex := some 7,
        enemyParty := some [{ species := 1, level := JsVal.num 3 }] }
      { waveIndex := some 7,
        enemyParty := some [{ species := 2, level := JsVal.num 4 }] }
      rfl (by decide) rfl rfl _ _ rfl _ _ rfl
  exact ⟨h1, h2,
    h3 initState "Z"
      { waveIndex := some 5,
        enemyParty := some [{ species := 10, level := JsVal.num 1 }] }
      { waveIndex := some 6,
        enemyParty := some [{ species := 11, level := JsVal.num 2 }] }
      { waveIndex := some 5,
        enemyParty := some [{ species := 12, level := JsVal.num 3 }] }
      _ _ _ _ _ _ rfl rfl rfl rfl rfl rfl⟩

/-- C3 counterexample: invoking `END_RUN` with no active run produces no
emission, yet the caller receives `{success := true}` — the very same
response a successful finalize produces — so the `NoActiveRun` failure is
not observable to the caller (the only signal is a console warning). -/
theorem finalize_no_active_run_counterexample :
    (handleEndRun initState "T" none).2.1 = none ∧
    (handleEndRun initState "T" none).2.2.success = true ∧
    (handleEndRun initState "T" none).2.2 =
      (handleEndRun (startRun initState "S") "T" none).2.2 := by
  decide

/-- C3 amended: `endRun` with no active run performs no emission and leaves
the state unchanged, but the failure is not reported to the caller: the
`END_RUN` handler responds `{success := true}` unconditionally, and the
`NoActiveRun` condition is signalled only by a console warning. -/
theorem finalize_no_active_run_silent (st : TrackerState) (now : String)
    (m : Option RunMeta) (h : st.currentRun = none) :
    handleEndRun st now m =
      (st, none, ({ success := true } : MsgResponse)) := by
  obtain ⟨cr, buf, bi, lw⟩ := st
  simp only [TrackerState.currentRun] at h
  subst h
  rfl

/-- C3 amended witness: the initial state has no active run, and `END_RUN`
there returns the unchanged state, no emission, and a success response. -/
theorem finalize_no_active_run_silent_witness :
    initState.currentRun = none ∧
    handleEndRun initState "T" none =
      (initState, none, ({ success := true } : MsgResponse)) :=
  ⟨rfl, finalize_no_active_run_silent initState "T" none rfl⟩

/-- C4 counterexample: `startRun` invoked while a run is active (here with
one buffered encounter) neither fails nor no-ops: it returns a changed state
with a fresh active run and an empty buffer, silently discarding the prior
run's buffered encounter. -/
theorem start_while_active_counterexample :
    (startRun (logEncounterFromSession (fun i => i) (startRun initState "A")
        (some { waveIndex := some 1,
                enemyParty := some [{ species := 25, level := JsVal.num 5 }] }))
      "B") ≠
      logEncounterFromSession (fun i => i) (startRun initState "A")
        (some { waveIndex := some 1,
                enemyParty :=
                  some [{ species := 25, level := JsVal.num 5 }] }) ∧
    (logEncounterFromSession (fun i => i) (startRun initState "A")
        (some { waveIndex := some 1,
                enemyParty :=
                  some [{ species := 25,
                          level := JsVal.num 5 }] })).encounterBuffer.length =
      1 ∧
    (startRun (logEncounterFromSession (fun i => i) (startRun initState "A")
        (some { waveIndex := some 1,
                enemyParty := some [{ species := 25, level := JsVal.num 5 }] }))
      "B").encounterBuffer = [] ∧
    (startRun (logEncounterFromSession (fun i => i) (startRun initState "A")
        (some { waveIndex := some 1,
                enemyParty := some [{ species := 25, level := JsVal.num 5 }] }))
      "B").currentRun.isSome = true := by
  decide

/-- C4 amended: `startRun` while a run is active always succeeds and
overwrites: the result is independent of the prior state (the prior run and
its buffered encounters are silently discarded, with no failure signal), a
fresh run keyed by the new timestamp is installed, and the buffer, battle
index and wave cursor are reset — so at most one active run exists at a
time because the single run slot is overwritten, not because the call fails
or no-ops. -/
theorem start_overwrites_prior_state (st stOther : TrackerState)
    (now : String) :
    startRun st now = startRun stOther now ∧
    (startRun st now).currentRun = some
      { run_id := "run_" ++ now, start_timestamp := now,
        end_timestamp := JsVal.null, result := JsVal.null,
        final_stage := JsVal.null, final_boss := JsVal.null,
        starter_species := JsVal.null, total_battles := JsVal.null,
        run_tag := JsVal.null } ∧
    (startRun st now).encounterBuffer = [] ∧
    (startRun st now).battleIndex = 0 ∧
    (startRun st now).lastLoggedWaveIndex = none :=
  ⟨rfl, rfl, rfl, rfl, rfl⟩

/-- C5: the finalize metadata merge has overwrite semantics — a field
present in the metadata overwrites the Run field (also when the value is
null), an absent field keeps the prior value — and in particular
`endRun` with `{result: "WIN"}` after a start emits a run with
`result = "WIN"` and `final_stage`, `final_boss`, `starter_species`,
`run_tag` still at their prior null values. -/
theorem finalize_metadata_merge (run : Run) (m : RunMeta)
    (st : TrackerState) (startTime endTime : String) :
    ((∀ v, m.result = some v → (mergeMeta run m).result = v) ∧
     (m.result = none → (mergeMeta run m).result = run.result) ∧
     (∀ v, m.final_stage = some v → (mergeMeta run m).final_stage = v) ∧
     (m.final_stage = none → (mergeMeta run m).final_stage = run.final_stage) ∧
     (∀ v, m.final_boss = some v → (mergeMeta run m).final_boss = v) ∧
     (m.final_boss = none → (mergeMeta run m).final_boss = run.final_boss) ∧
     (∀ v, m.starter_species = some v →
       (mergeMeta run m).starter_species = v) ∧
     (m.starter_species = none →
       (mergeMeta run m).starter_species = run.starter_species) ∧
     (∀ v, m.run_tag = some v → (mergeMeta run m).run_tag = v) ∧
     (m.run_tag = none → (mergeMeta run m).run_tag = run.run_tag) ∧
     (∀ v, m.run_id = some v → (mergeMeta run m).run_id = v) ∧
     (m.run_id = none → (mergeMeta run m).run_id = run.run_id) ∧
     (∀ v, m.start_timestamp = some v →
       (mergeMeta run m).start_timestamp = v) ∧
     (m.start_timestamp = none →
       (mergeMeta run m).start_timestamp = run.start_timestamp) ∧
     (∀ v, m.end_timestamp = some v → (mergeMeta run m).end_timestamp = v) ∧
     (m.end_timestamp = none →
       (mergeMeta run m).end_timestamp = run.end_timestamp) ∧
     (∀ v, m.total_battles = some v → (mergeMeta run m).total_battles = v) ∧
     (m.total_battles = none →
       (mergeMeta run m).total_battles = run.total_battles)) ∧
    (∃ em : Emission,
      (endRun (startRun st startTime) endTime
          (some { emptyMeta with result := some (JsVal.str "WIN") })).2 =
        some em ∧
      em.payload.run.result = JsVal.str "WIN" ∧
      em.payload.run.final_stage = JsVal.null ∧
      em.payload.run.final_boss = JsVal.null ∧
      em.payload.run.starter_species = JsVal.null ∧
      em.payload.run.run_tag = JsVal.null) := by
  refine ⟨⟨?_, ?_, ?_, ?_, ?_, ?_, ?_, ?_, ?_, ?_, ?_, ?_, ?_, ?_, ?_, ?_,
    ?_, ?_⟩, ?_⟩
  all_goals first
  | exact fun v h => by simp [mergeMeta, h]
  | exact fun h => by simp [mergeMeta, h]
  | exact ⟨_, rfl, rfl, rfl, rfl, rfl, rfl⟩

/-- C5 witness: merging `{result: null}` into a concrete run overwrites
`result` with null and keeps `final_stage`, and the concrete
`finalize({result: "WIN"})` emission holds after a start. -/
theorem finalize_metadata_merge_witness :
    (mergeMeta
        { run_id := "r0", start_timestamp := "t0",
          end_timestamp := JsVal.null, result := JsVal.str "LOSS",
          final_stage := JsVal.num 20, final_boss := JsVal.null,
          starter_species := JsVal.null, total_battles := JsVal.null,
          run_tag := JsVal.null }
        { emptyMeta with result := some JsVal.null }).result = JsVal.null ∧
    (mergeMeta
        { run_id := "r0", start_timestamp := "t0",
          end_timestamp := JsVal.null, result := JsVal.str "LOSS",
          final_stage := JsVal.num 20, final_boss := JsVal.null,
          starter_species := JsVal.null, total_battles := JsVal.null,
          run_tag := JsVal.null }
        { emptyMeta with result := some JsVal.null }).final_stage =
      JsVal.num 20 ∧
    ∃ em : Emission,
      (endRun (startRun initState "A") "B"
          (some { emptyMeta with result := some (JsVal.str "WIN") })).2 =
        some em ∧
      em.payload.run.result = JsVal.str "WIN" ∧
      em.payload.run.final_stage = JsVal.null ∧
      em.payload.run.final_boss = JsVal.null ∧
      em.payload.run.starter_species = JsVal.null ∧
      em.payload.run.run_tag = JsVal.null := by
  obtain ⟨hpart, hem⟩ := finalize_metadata_merge
    { run_id := "r0", start_timestamp := "t0",
      end_timestamp := JsVal.null, result := JsVal.str "LOSS",
      final_stage := JsVal.num 20, final_boss := JsVal.null,
      starter_species := JsVal.null, total_battles := JsVal.null,
      run_tag := JsVal.null }
    { emptyMeta with result := some JsVal.null } initState "A" "B"
  exact ⟨hpart.1 JsVal.null rfl, hpart.2.2.2.1 rfl, hem⟩

/-- C6: `logEncounterFromSession` rejects as a total no-op — the whole
recorder state (active run, encounter buffer, battle index, wave cursor) is
returned unchanged, and the model has no error channel — whenever no run is
active, the snapshot is absent, or its `enemyParty` is missing or empty. -/
theorem reject_invalid_snapshot_noop (convertId : Int → Int)
    (st : TrackerState) (sd : Option Snapshot)
    (h : st.currentRun = none ∨ sd = none ∨
         ∃ s, sd = some s ∧
           (s.enemyParty = none ∨ s.enemyParty = some [])) :
    logEncounterFromSession convertId st sd = st := by
  rcases h with h | h | ⟨s, rfl, hp⟩
  · simp [logEncounterFromSession, h]
  · subst h
    cases hcr : st.currentRun <;> simp [logEncounterFromSession, hcr]
  · cases hcr : st.currentRun <;> rcases hp with hp | hp <;>
      simp [logEncounterFromSession, hcr, hp]

/-- C6 witness: a snapshot with an empty `enemyParty` delivered to an active
run changes nothing. -/
theorem reject_invalid_snapshot_noop_witness :
    (∃ s, (some { waveIndex := some 3, enemyParty := some ([] : List
        EnemyMember) } : Option Snapshot) = some s ∧
      (s.enemyParty = none ∨ s.enemyParty = some [])) ∧
    logEncounterFromSession (fun i => i) (startRun initState "A")
        (some { waveIndex := some 3, enemyParty := some [] }) =
      startRun initState "A" :=
  ⟨⟨_, rfl, Or.inr rfl⟩,
   reject_invalid_snapshot_noop (fun i => i) (startRun initState "A")
     (some { waveIndex := some 3, enemyParty := some [] })
     (Or.inr (Or.inr ⟨_, rfl, Or.inr rfl⟩))⟩

/-- C7: a successful `endRun` (a run is active) performs exactly one
emission — the model returns `some` emission, and its return type allows at
most one per call — and clears the whole recorder state: active run absent,
buffer empty, battle index and wave cursor reset, ready for a new start. -/
theorem finalize_emits_once_and_clears (st : TrackerState) (r : Run)
    (now : String) (meta : Option RunMeta) (h : st.currentRun = some r) :
    ((endRun st now meta).2).isSome = true ∧
    (endRun st now meta).1.currentRun = none ∧
    (endRun st now meta).1.encounterBuffer = [] ∧
    (endRun st now meta).1.battleIndex = 0 ∧
    (endRun st now meta).1.lastLoggedWaveIndex = none := by
  rw [endRun_active st r now meta h]
  exact ⟨rfl, rfl, rfl, rfl, rfl⟩

/-- C7 witness: finalizing a started run emits a document and resets every
state component. -/
theorem finalize_emits_once_and_clears_witness :
    (startRun initState "A").currentRun.isSome = true ∧
    ((endRun (startRun initState "A") "B" none).2).isSome = true ∧
    (endRun (startRun initState "A") "B" none).1.currentRun = none ∧
    (endRun (startRun initState "A") "B" none).1.encounterBuffer = [] ∧
    (endRun (startRun initState "A") "B" none).1.battleIndex = 0 ∧
    (endRun (startRun initState "A") "B" none).1.lastLoggedWaveIndex =
      none := by
  refine ⟨rfl, ?_⟩
  exact finalize_emits_once_and_clears (startRun initState "A") _ "B" none rfl

/-- C8: the emitted document of a finalized run goes to
`pokerogue_runs/<safe run id>.json`, a namespace keyed by the run id of the
emitted run record, where the safe id is the run id with every colon
character replaced by a hyphen (so no colon remains). -/
theorem emission_path_namespaced_by_run_id (st : TrackerState) (r : Run)
    (now : String) (meta : Option RunMeta) (h : st.currentRun = some r) :
    ∃ em : Emission,
      (endRun st now meta).2 = some em ∧
      em.filename = "pokerogue_runs/" ++
        replaceColonsWithHyphens em.payload.run.run_id ++ ".json" ∧
      (replaceColonsWithHyphens em.payload.run.run_id).data =
        em.payload.run.run_id.data.map
          (fun c => if c = ':' then '-' else c) ∧
      ':' ∉ (replaceColonsWithHyphens em.payload.run.run_id).data := by
  rw [endRun_active st r now meta h]
  refine ⟨_, rfl, rfl, rfl, ?_⟩
  intro hmem
  have hmem2 : ':' ∈ (finalizedRun r now meta
      st.encounterBuffer.length).run_id.data.map
      (fun c => if c = ':' then '-' else c) := hmem
  rw [List.mem_map] at hmem2
  obtain ⟨c, -, hceq⟩ := hmem2
  by_cases hc : c = ':'
  · rw [if_pos hc] at hceq
    exact absurd hceq (by decide)
  · rw [if_neg hc] at hceq
    exact hc hceq

/-- C8 witness: a run started at a colon-bearing timestamp emits to a
filename whose safe id has the colon replaced and contains no colon. -/
theorem emission_path_namespaced_by_run_id_witness :
    (startRun initState "12:30").currentRun.isSome = true ∧
    ∃ em : Emission,
      (endRun (startRun initState "12:30") "B" none).2 = some em ∧
      em.filename = "pokerogue_runs/" ++
        replaceColonsWithHyphens em.payload.run.run_id ++ ".json" ∧
      (replaceColonsWithHyphens em.payload.run.run_id).data =
        em.payload.run.run_id.data.map
          (fun c => if c = ':' then '-' else c) ∧
      ':' ∉ (replaceColonsWithHyphens em.payload.run.run_id).data := by
  refine ⟨rfl, ?_⟩
  exact emission_path_namespaced_by_run_id (startRun initState "12:30") _
    "B" none rfl

/-- C9: an appended encounter records `enemy_level` as null whenever the
first enemy party member's `level` is falsy (`firstEnemy.level || null`);
in particular the numeric level 0 is falsy and is recorded as null rather
than as the integer 0. -/
theorem falsy_level_recorded_null (convertId : Int → Int)
    (st : TrackerState) (s : Snapshot) (e : EnemyMember)
    (t : List EnemyMember) (hp : s.enemyParty = some (e :: t))
    (hap : snapAppendsB st (some s) = true)
    (hf : jsFalsy e.level = true) :
    (∃ enc : Encounter,
      (logEncounterFromSession convertId st (some s)).encounterBuffer =
        st.encounterBuffer ++ [enc] ∧ enc.enemy_level = JsVal.null) ∧
    jsFalsy (JsVal.num 0) = true := by
  rw [snapAppendsB, Bool.and_eq_true] at hap
  obtain ⟨hsome, hrest⟩ := hap
  obtain ⟨r, hr⟩ := Option.isSome_iff_exists.mp hsome
  have hcond : ¬(s.waveIndex ≠ none ∧
      s.waveIndex = st.lastLoggedWaveIndex) := by
    cases hw : s.waveIndex with
    | none => simp
    | some w =>
      simp only [hp, hw, Bool.not_eq_true', beq_eq_false_iff_ne] at hrest
      simp only [ne_eq, not_and]
      intro _ hc
      exact hrest hc.symm
  have hkey : (logEncounterFromSession convertId st (some s)).encounterBuffer =
      st.encounterBuffer ++
        [{ encounter_id := r.run_id ++ "_" ++
             padStart 3 '0' (toString st.battleIndex),
           battle_index := st.battleIndex,
           enemy_species := convertId e.species,
           enemy_type1 := JsVal.null, enemy_type2 := JsVal.null,
           enemy_level := JsVal.null, is_boss := false,
           encounter_result := JsVal.null, enemy_ended_run := false,
           notes := JsVal.null }] := by
    simp only [logEncounterFromSession, hr, hp]
    split
    · next hcontra => exact absurd hcontra hcond
    · simp [hf]
  exact ⟨⟨_, hkey, rfl⟩, rfl⟩

/-- C9 witness: an enemy at numeric level 0 in a valid fresh snapshot is
recorded with `enemy_level = null`. -/
theorem falsy_level_recorded_null_witness :
    snapAppendsB (startRun initState "A")
      (some { waveIndex := some 1,
              enemyParty := some [{ species := 25, level := JsVal.num 0 }] }) =
      true ∧
    (∃ enc : Encounter,
      (logEncounterFromSession (fun i => i) (startRun initState "A")
          (some { waveIndex := some 1,
                  enemyParty :=
                    some [{ species := 25,
                            level := JsVal.num 0 }] })).encounterBuffer =
        (startRun initState "A").encounterBuffer ++ [enc] ∧
      enc.enemy_level = JsVal.null) ∧
    jsFalsy (JsVal.num 0) = true :=
  ⟨by decide,
   (falsy_level_recorded_null (fun i => i) (startRun initState "A")
     { waveIndex := some 1,
       enemyParty := some [{ species := 25, level := JsVal.num 0 }] }
     { species := 25, level := JsVal.num 0 } [] rfl (by decide) rfl).1,
   rfl⟩

/-- C10: the finalize metadata merge is unfiltered — keys present in the
metadata overwrite even `run_id`, `start_timestamp` and `end_timestamp`
(the latter is stamped before the merge and can thus be overridden) — while
`total_battles` cannot be overridden, because it is assigned from the
buffer length after the merge, whatever value the metadata carried. -/
theorem unfiltered_merge_overrides (st : TrackerState) (r : Run)
    (now : String) (m : RunMeta) (rid ts : String) (te tb : JsVal)
    (h : st.currentRun = some r) (hid : m.run_id = some rid)
    (hts : m.start_timestamp = some ts) (hte : m.end_timestamp = some te)
    (htb : m.total_battles = some tb) :
    ∃ em : Emission,
      (endRun st now (some m)).2 = some em ∧
      em.payload.run.run_id = rid ∧
      em.payload.run.start_timestamp = ts ∧
      em.payload.run.end_timestamp = te ∧
      em.payload.run.total_battles =
        JsVal.num (Int.ofNat st.encounterBuffer.length) := by
  rw [endRun_active st r now (some m) h]
  refine ⟨_, rfl, ?_, ?_, ?_, rfl⟩
  · show (finalizedRun r now (some m) st.encounterBuffer.length).run_id = rid
    simp [finalizedRun, mergeMeta, hid]
  · show (finalizedRun r now (some m)
      st.encounterBuffer.length).start_timestamp = ts
    simp [finalizedRun, mergeMeta, hts]
  · show (finalizedRun r now (some m)
      st.encounterBuffer.length).end_timestamp = te
    simp [finalizedRun, mergeMeta, hte]

/-- C10 witness: metadata carrying `run_id`, `start_timestamp`,
`end_timestamp` and `total_battles` overrides the first three in the
emitted run, while `total_battles` is still the buffer length (0), not the
supplied 999. -/
theorem unfiltered_merge_overrides_witness :
    ∃ em : Emission,
      (endRun (startRun initState "A") "B"
          (some { run_id := some "forged_id", start_timestamp := some "T0",
                  end_timestamp := some (JsVal.str "T9"), result := none,
                  final_stage := none, final_boss := none,
                  starter_species := none,
                  total_battles := some (JsVal.num 999),
                  run_tag := none })).2 = some em ∧
      em.payload.run.run_id = "forged_id" ∧
      em.payload.run.start_timestamp = "T0" ∧
      em.payload.run.end_timestamp = JsVal.str "T9" ∧
      em.payload.run.total_battles = JsVal.num (Int.ofNat 0) :=
  unfiltered_merge_overrides (startRun initState "A") _ "B"
    { run_id := some "forged_id", start_timestamp := some "T0",
      end_timestamp := some (JsVal.str "T9"), result := none,
      final_stage := none, final_boss := none, starter_species := none,
      total_battles := some (JsVal.num 999), run_tag := none }
    "forged_id" "T0" (JsVal.str "T9") (JsVal.num 999)
    rfl rfl rfl rfl rfl
